import Mathlib

/-!
Verification of the apply engine in `apply/apply.go` of wongearl/k8sutil.

The Go code is shallowly embedded: the semi-structured Kubernetes objects
(`unstructured.Unstructured`, whose payload is a JSON document) are modelled
by the inductive `JValue`; serialization (`MarshalJSON`) is the identity on
this representation, so "bytes" and "documents" coincide.  The external
collaborators (dynamic client transport, REST mapper, YAML decoder stages,
type registry/`Scheme`) are passed in as explicit oracle functions, and every
transport request the engine issues is recorded in a call trace so that
theorems can speak about which requests were (not) sent.
-/

namespace K8sApply

/-- A JSON-like document value.  Objects are ordered association lists, which
matches the generic `map[string]interface{}` representation that
`unstructured.Unstructured` uses (lookup is by key). -/
inductive JValue where
  | null
  | str (s : String)
  | num (n : Int)
  | bool (b : Bool)
  | arr (elems : List JValue)
  | obj (fields : List (String × JValue))

mutual

/-- Boolean structural equality on documents (Go `reflect.DeepEqual` on the
decoded JSON representation). -/
def JValue.beq : JValue → JValue → Bool
  | .null, .null => true
  | .str a, .str b => a == b
  | .num a, .num b => a == b
  | .bool a, .bool b => a == b
  | .arr xs, .arr ys => beqElems xs ys
  | .obj xs, .obj ys => beqFields xs ys
  | _, _ => false

def beqElems : List JValue → List JValue → Bool
  | [], [] => true
  | x :: xs, y :: ys => JValue.beq x y && beqElems xs ys
  | _, _ => false

def beqFields : List (String × JValue) → List (String × JValue) → Bool
  | [], [] => true
  | (k1, v1) :: xs, (k2, v2) :: ys => k1 == k2 && JValue.beq v1 v2 && beqFields xs ys
  | _, _ => false

end

/-- Is this document the JSON `null`? -/
def JValue.isNull : JValue → Bool
  | .null => true
  | _ => false

/-- First value bound to key `k` in an association list (Go map lookup). -/
def lookupField : List (String × JValue) → String → Option JValue
  | [], _ => none
  | (k1, v) :: rest, k => if k1 = k then some v else lookupField rest k

/-- Replace the binding of `k` (or append one): Go map assignment `m[k] = v`. -/
def setField : List (String × JValue) → String → JValue → List (String × JValue)
  | [], k, v => [(k, v)]
  | (k1, v1) :: rest, k, v =>
    if k1 = k then (k, v) :: rest else (k1, v1) :: setField rest k v

/-- Remove every binding of `k`: Go map `delete(m, k)`. -/
def removeField (fs : List (String × JValue)) (k : String) : List (String × JValue) :=
  fs.filter fun kv => kv.1 ≠ k

/-- The fields of a document if it is an object, else the empty field list. -/
def fieldsOr : JValue → List (String × JValue)
  | .obj fs => fs
  | _ => []

/-- `getNested j path`: walk `path` through nested objects
(`unstructured.NestedFieldNoCopy`); `none` when a step is missing or the
value at a step is not an object. -/
def getNested : JValue → List String → Option JValue
  | j, [] => some j
  | j, k :: rest =>
    match lookupField (fieldsOr j) k with
    | some c => getNested c rest
    | none => none

/-- The child of `j` at key `k`, or a fresh empty object when absent
(`unstructured.SetNestedField` creates intermediate maps as it walks). -/
def childOr (j : JValue) (k : String) : JValue :=
  match lookupField (fieldsOr j) k with
  | some c => c
  | none => .obj []

/-- `setNested j path v`: write `v` at `path`, creating intermediate objects
(`unstructured.SetNestedField`).  The real accessor reports an error (which
the engine's callers ignore, making the write a no-op) when an intermediate
value exists but is not a map; this model overwrites such intermediates
instead.  The engine only ever writes under `metadata` of decoded manifest
objects, where the intermediates are maps, so the two behaviours agree on
every reachable input. -/
def setNested : JValue → List String → JValue → JValue
  | _, [], v => v
  | j, k :: rest, v => .obj (setField (fieldsOr j) k (setNested (childOr j k) rest v))

/-- `removeNested j path`: delete the field at `path`
(`unstructured.RemoveNestedField`); a no-op when the path is missing or walks
through a non-object. -/
def removeNested : JValue → List String → JValue
  | j, [] => j
  | j, [k] =>
    match j with
    | .obj fs => .obj (removeField fs k)
    | _ => j
  | j, k :: rest =>
    match j with
    | .obj fs =>
      match lookupField fs k with
      | some c => .obj (setField fs k (removeNested c rest))
      | none => j
    | _ => j

/-- String at a nested path, `""` when absent or not a string
(`unstructured.NestedString`, the shape of the `GetName`/`GetNamespace`/…
accessors). -/
def getNestedString (j : JValue) (path : List String) : String :=
  match getNested j path with
  | some (.str s) => s
  | _ => ""

def JValue.getName (j : JValue) : String := getNestedString j ["metadata", "name"]

def JValue.getGenerateName (j : JValue) : String :=
  getNestedString j ["metadata", "generateName"]

def JValue.getNamespace (j : JValue) : String :=
  getNestedString j ["metadata", "namespace"]

def JValue.getKind (j : JValue) : String := getNestedString j ["kind"]

def JValue.getAPIVersion (j : JValue) : String := getNestedString j ["apiVersion"]

def JValue.setNamespace (j : JValue) (ns : String) : JValue :=
  setNested j ["metadata", "namespace"] (.str ns)

/-- `corev1.LastAppliedConfigAnnotation`. -/
def lastAppliedConfigAnnotationKey : String :=
  "kubectl.kubernetes.io/last-applied-configuration"

/-- Does the object's annotation map carry key `k`?  (The engine reads
`GetAnnotations()` and tests key membership.) -/
def JValue.hasAnnotationKey (j : JValue) (k : String) : Bool :=
  (getNested j ["metadata", "annotations", k]).isSome

/-! ### Lemmas about the nested-field accessors -/

theorem lookupField_setField (fs : List (String × JValue)) (k k2 : String) (v : JValue) :
    lookupField (setField fs k v) k2 = if k = k2 then some v else lookupField fs k2 := by
  induction fs with
  | nil => by_cases h : k = k2 <;> simp [setField, lookupField, h]
  | cons hd tl ih =>
    obtain ⟨k1, v1⟩ := hd
    by_cases h1 : k1 = k <;> by_cases h2 : k = k2 <;> by_cases h3 : k1 = k2 <;>
      simp_all [setField, lookupField]

theorem lookupField_removeField (fs : List (String × JValue)) (k k2 : String) :
    lookupField (removeField fs k) k2 = if k = k2 then none else lookupField fs k2 := by
  induction fs with
  | nil => by_cases h : k = k2 <;> simp [removeField, lookupField, h]
  | cons hd tl ih =>
    obtain ⟨k1, v1⟩ := hd
    by_cases h1 : k1 = k <;> by_cases h2 : k = k2 <;> by_cases h3 : k1 = k2 <;>
      simp_all [removeField, lookupField, List.filter_cons]

theorem getNested_setNested_self (p : List String) (j v : JValue) :
    getNested (setNested j p v) p = some v := by
  induction p generalizing j with
  | nil => rfl
  | cons k rest ih => simp [setNested, getNested, fieldsOr, lookupField_setField, ih]

theorem getNested_setNested_ne (k k2 : String) (h : k ≠ k2) (p q : List String) (j v : JValue) :
    getNested (setNested j (k :: p) v) (k2 :: q) = getNested j (k2 :: q) := by
  cases j <;> simp [setNested, getNested, fieldsOr, lookupField_setField, h, lookupField]

theorem getNested_setNested_same_head (k : String) (p q : List String) (j v : JValue) :
    getNested (setNested j (k :: p) v) (k :: q) = getNested (setNested (childOr j k) p v) q := by
  simp [setNested, getNested, fieldsOr, lookupField_setField]

theorem getNested_childOr (j : JValue) (k : String) (q : List String) (hq : q ≠ []) :
    getNested j (k :: q) = getNested (childOr j k) q := by
  cases q with
  | nil => exact absurd rfl hq
  | cons q1 q2 =>
    cases hc : lookupField (fieldsOr j) k with
    | some c => simp [getNested, childOr, hc]
    | none =>
      simp only [getNested, childOr, hc]
      simp [getNested, fieldsOr, lookupField]

theorem removeNested_empty_obj (p : List String) :
    removeNested (JValue.obj []) p = JValue.obj [] := by
  cases p with
  | nil => rfl
  | cons k rest => cases rest <;> simp [removeNested, removeField, lookupField]

theorem getNested_empty_obj (q : List String) (hq : q ≠ []) :
    getNested (JValue.obj []) q = none := by
  cases q with
  | nil => exact absurd rfl hq
  | cons q1 q2 => simp [getNested, fieldsOr, lookupField]

theorem getNested_removeNested_self (p : List String) (hp : p ≠ []) (j : JValue) :
    getNested (removeNested j p) p = none := by
  induction p generalizing j with
  | nil => exact absurd rfl hp
  | cons k rest ih =>
    cases rest with
    | nil =>
      cases j <;> simp [removeNested, getNested, fieldsOr, lookupField, lookupField_removeField]
    | cons r rs =>
      cases j with
      | obj fs =>
        cases hc : lookupField fs k with
        | some c =>
          simpa [removeNested, hc, getNested, fieldsOr, lookupField_setField] using
            ih (by simp) c
        | none => simp [removeNested, hc, getNested, fieldsOr]
      | null => simp [removeNested, getNested, fieldsOr, lookupField]
      | str s => simp [removeNested, getNested, fieldsOr, lookupField]
      | num n => simp [removeNested, getNested, fieldsOr, lookupField]
      | bool b => simp [removeNested, getNested, fieldsOr, lookupField]
      | arr xs => simp [removeNested, getNested, fieldsOr, lookupField]

theorem getNested_removeNested_ne (k k2 : String) (h : k ≠ k2) (p q : List String) (j : JValue) :
    getNested (removeNested j (k :: p)) (k2 :: q) = getNested j (k2 :: q) := by
  cases p with
  | nil =>
    cases j <;> simp [removeNested, getNested, fieldsOr, lookupField_removeField, h, lookupField]
  | cons r rs =>
    cases j with
    | obj fs =>
      cases hc : lookupField fs k with
      | some c => simp [removeNested, hc, getNested, fieldsOr, lookupField_setField, h]
      | none => simp [removeNested, hc]
    | null => simp [removeNested]
    | str s => simp [removeNested]
    | num n => simp [removeNested]
    | bool b => simp [removeNested]
    | arr xs => simp [removeNested]

theorem getNested_removeNested_same_head (k : String) (p q : List String)
    (hp : p ≠ []) (hq : q ≠ []) (j : JValue) :
    getNested (removeNested j (k :: p)) (k :: q) =
      getNested (removeNested (childOr j k) p) q := by
  cases p with
  | nil => exact absurd rfl hp
  | cons r rs =>
    cases j with
    | obj fs =>
      cases hc : lookupField fs k with
      | some c => simp [removeNested, hc, getNested, fieldsOr, lookupField_setField, childOr]
      | none =>
        simp only [removeNested, hc, childOr, fieldsOr]
        rw [removeNested_empty_obj, getNested_empty_obj _ hq]
        cases q with
        | nil => exact absurd rfl hq
        | cons q1 q2 => simp [getNested, fieldsOr, hc]
    | null => simp [removeNested, childOr, fieldsOr, lookupField, removeNested_empty_obj,
        getNested_empty_obj _ hq, getNested]
    | str s => simp [removeNested, childOr, fieldsOr, lookupField, removeNested_empty_obj,
        getNested_empty_obj _ hq, getNested]
    | num n => simp [removeNested, childOr, fieldsOr, lookupField, removeNested_empty_obj,
        getNested_empty_obj _ hq, getNested]
    | bool b => simp [removeNested, childOr, fieldsOr, lookupField, removeNested_empty_obj,
        getNested_empty_obj _ hq, getNested]
    | arr xs => simp [removeNested, childOr, fieldsOr, lookupField, removeNested_empty_obj,
        getNested_empty_obj _ hq, getNested]

/-! ### The engine's object mutations

`unstructured.Unstructured` wraps a Go map, which is a reference type: the
mutating accessors below act on the same map the caller (and the decoded
batch list) holds, so their effect is visible after the call returns.  The
embedding threads the mutated value explicitly and reports the final state of
the shared map in the `post` component of `ApplyResult`. -/

/-- The server-side branch (lines 164-168 of apply.go): when the legacy
last-applied annotation is present, read the annotations, delete the key and
store the map back; otherwise leave the object alone. -/
def stripLastApplied (j : JValue) : JValue :=
  if j.hasAnnotationKey lastAppliedConfigAnnotationKey then
    removeNested j ["metadata", "annotations", lastAppliedConfigAnnotationKey]
  else j

/-- `SetManagedFields(nil)` deletes the `metadata.managedFields` entry. -/
def removeManagedFields (j : JValue) : JValue :=
  removeNested j ["metadata", "managedFields"]

/-- Modelled from the spec: `util.CreateApplyAnnotationStamp` (the Configuration
Annotator's `stampConfiguration`, §4.2) is not under src/.  It serializes the
object without the reserved annotation and writes that serialization into the
object's annotations under the reserved key.  Serialization is the identity
in this embedding, so the stamped value is the stripped document itself. -/
def CreateApplyAnnotationStamp (j : JValue) : JValue :=
  setNested j ["metadata", "annotations", lastAppliedConfigAnnotationKey]
    (removeNested j ["metadata", "annotations", lastAppliedConfigAnnotationKey])

/-- Modelled from the spec: `util.GetModifiedConfiguration` (the Configuration
Annotator's `extractModified`, §4.2) is not under src/.  It computes what
would be stamped into the desired object — the object carrying, under the
reserved key, its own serialization without that key — without mutating the
caller's object. -/
def GetModifiedConfiguration (j : JValue) : JValue :=
  setNested j ["metadata", "annotations", lastAppliedConfigAnnotationKey]
    (removeNested j ["metadata", "annotations", lastAppliedConfigAnnotationKey])

/-- Modelled from the spec: `util.GetOriginalConfiguration` (the Configuration
Annotator's `extractOriginal`, §4.2) is not under src/.  It reads the
reserved annotation from the live object; an absent key yields the empty
original document (not an error). -/
def GetOriginalConfiguration (live : JValue) : JValue :=
  match getNested live ["metadata", "annotations", lastAppliedConfigAnnotationKey] with
  | some v => v
  | none => .obj []

/-! ### Preservation lemmas for the object mutations -/

theorem getNested_setNested_sibling (j v : JValue) (k1 k2 : String) (h : k1 ≠ k2)
    (p q : List String) :
    getNested (setNested j ("metadata" :: k1 :: p) v) ("metadata" :: k2 :: q) =
      getNested j ("metadata" :: k2 :: q) := by
  rw [getNested_setNested_same_head, getNested_setNested_ne k1 k2 h,
    ← getNested_childOr _ _ _ (by simp)]

theorem getNested_removeNested_sibling (j : JValue) (k1 k2 : String) (h : k1 ≠ k2)
    (p q : List String) :
    getNested (removeNested j ("metadata" :: k1 :: p)) ("metadata" :: k2 :: q) =
      getNested j ("metadata" :: k2 :: q) := by
  rw [getNested_removeNested_same_head "metadata" (k1 :: p) (k2 :: q) (by simp) (by simp),
    getNested_removeNested_ne k1 k2 h, ← getNested_childOr _ _ _ (by simp)]

theorem getNamespace_setNamespace (j : JValue) (ns : String) :
    (j.setNamespace ns).getNamespace = ns := by
  unfold JValue.setNamespace JValue.getNamespace getNestedString
  rw [getNested_setNested_self]

theorem getNested_annotations_setNamespace (j : JValue) (ns k : String) :
    getNested (j.setNamespace ns) ["metadata", "annotations", k] =
      getNested j ["metadata", "annotations", k] := by
  unfold JValue.setNamespace
  exact getNested_setNested_sibling j _ "namespace" "annotations" (by decide) _ _

theorem hasAnnotationKey_setNamespace (j : JValue) (ns k : String) :
    (j.setNamespace ns).hasAnnotationKey k = j.hasAnnotationKey k := by
  unfold JValue.hasAnnotationKey
  rw [getNested_annotations_setNamespace]

theorem getNamespace_stripLastApplied (j : JValue) :
    (stripLastApplied j).getNamespace = j.getNamespace := by
  unfold stripLastApplied
  split
  · unfold JValue.getNamespace getNestedString
    rw [getNested_removeNested_sibling j "annotations" "namespace" (by decide)]
  · rfl

theorem getNamespace_removeManagedFields (j : JValue) :
    (removeManagedFields j).getNamespace = j.getNamespace := by
  unfold removeManagedFields JValue.getNamespace getNestedString
  rw [getNested_removeNested_sibling j "managedFields" "namespace" (by decide)]

theorem getNamespace_createApplyStamp (j : JValue) :
    (CreateApplyAnnotationStamp j).getNamespace = j.getNamespace := by
  unfold CreateApplyAnnotationStamp JValue.getNamespace getNestedString
  rw [getNested_setNested_sibling j _ "annotations" "namespace" (by decide)]

theorem hasAnnotationKey_stripLastApplied (j : JValue) :
    (stripLastApplied j).hasAnnotationKey lastAppliedConfigAnnotationKey = false := by
  unfold stripLastApplied
  split
  · unfold JValue.hasAnnotationKey
    rw [getNested_removeNested_self _ (by simp)]
    rfl
  · next h => simpa [JValue.hasAnnotationKey] using h

theorem getNested_annotations_removeManagedFields (j : JValue) (k : String) :
    getNested (removeManagedFields j) ["metadata", "annotations", k] =
      getNested j ["metadata", "annotations", k] := by
  unfold removeManagedFields
  exact getNested_removeNested_sibling j "managedFields" "annotations" (by decide) _ _

theorem managedFields_removeManagedFields (j : JValue) :
    getNested (removeManagedFields j) ["metadata", "managedFields"] = none := by
  unfold removeManagedFields
  exact getNested_removeNested_self _ (by simp) j

theorem hasAnnotationKey_createApplyStamp (j : JValue) :
    (CreateApplyAnnotationStamp j).hasAnnotationKey lastAppliedConfigAnnotationKey = true := by
  unfold CreateApplyAnnotationStamp JValue.hasAnnotationKey
  rw [getNested_setNested_self]
  rfl

/-! ### External collaborator: the JSON merge patch library

`k8s.io/apimachinery/pkg/util/jsonmergepatch` and the two-way merge patch it
builds on are external to this repository.  They are modelled at the
document's top level: a changed or added key maps to the modified value
wholesale, a key absent from the modified document maps to JSON null.  The
identity preconditions the engine installs inspect only top-level keys of
the resulting patch, and on top-level scalar fields such as `apiVersion` and
`kind` this model coincides with the library.  A violated precondition
surfaces as the distinguished `preconditionFailed` error, the contract that
`mergepatch.IsPreconditionFailed` detects. -/

inductive MergeErr where
  | notObject
  | conflict
  | preconditionFailed
  deriving Repr, DecidableEq

/-- Two-way JSON merge patch from `orig` to `modif` (top-level model of
`jsonpatch.CreateMergePatch`). -/
def diffFields (orig modif : List (String × JValue)) : List (String × JValue) :=
  (modif.filterMap fun kv =>
    match lookupField orig kv.1 with
    | some v0 => if JValue.beq v0 kv.2 then none else some kv
    | none => some kv) ++
  (orig.filterMap fun kv =>
    match lookupField modif kv.1 with
    | some _ => none
    | none => some (kv.1, JValue.null))

/-- `jsonpatch.CreateMergePatch`: both documents must be JSON objects. -/
def createMergePatch (original modified : JValue) : Except MergeErr JValue :=
  match original, modified with
  | .obj ofs, .obj mfs => .ok (.obj (diffFields ofs mfs))
  | _, _ => .error .notObject

/-- `keepOrDeleteNullInJsonPatch`: keep only the null entries (deletions) or
only the non-null entries (additions and changes) of a patch document. -/
def keepOrDeleteNull (keepNull : Bool) (patch : JValue) : JValue :=
  match patch with
  | .obj fs => .obj (fs.filter fun kv => if keepNull then kv.2.isNull else !kv.2.isNull)
  | other => other

/-- `mergepatch.HasConflicts`: do the two patch documents bind a common key to
different values? -/
def hasConflicts (a b : JValue) : Bool :=
  match a, b with
  | .obj afs, .obj bfs =>
    afs.any fun kv =>
      match lookupField bfs kv.1 with
      | some v2 => !JValue.beq kv.2 v2
      | none => false
  | _, _ => !JValue.beq a b

/-- `jsonpatch.MergePatch doc patch`: apply `patch` to `doc` (RFC 7386). -/
def applyMergePatch (doc patch : JValue) : JValue :=
  match patch with
  | .obj pfs =>
    .obj (pfs.foldl
      (fun acc kv => if kv.2.isNull then removeField acc kv.1 else setField acc kv.1 kv.2)
      (fieldsOr doc))
  | other => other

/-- `mergepatch.RequireKeyUnchanged key`: the precondition holds when the
patch does not touch `key` (key presence in the patch means a change). -/
def requireKeyUnchanged (key : String) : JValue → Bool := fun patch =>
  match patch with
  | .obj fs => (lookupField fs key).isNone
  | _ => true

/-- `jsonmergepatch.CreateThreeWayJSONMergePatch`: combine the non-null part
of the patch from current to modified with the null (deletion) part of the
patch from original to modified, reject conflicts between the two, and check
the preconditions on the combined patch. -/
def createThreeWayJSONMergePatch (original modified current : JValue)
    (fns : List (JValue → Bool)) : Except MergeErr JValue :=
  match createMergePatch current modified with
  | .error e => .error e
  | .ok addChanged0 =>
    let addChanged := keepOrDeleteNull false addChanged0
    match createMergePatch original modified with
    | .error e => .error e
    | .ok delete0 =>
      let deletePatch := keepOrDeleteNull true delete0
      if hasConflicts addChanged deletePatch then .error .conflict
      else
        let patch := applyMergePatch deletePatch addChanged
        if fns.all (fun fn => fn patch) then .ok patch
        else .error .preconditionFailed

/-- `mergepatch.IsPreconditionFailed`. -/
def isPreconditionFailed : MergeErr → Bool
  | .preconditionFailed => true
  | _ => false

/-! ### External collaborator: transport, REST mapping, type registry -/

/-- An error from the transport collaborator.  `isStatus` models whether the
Go error is a `*errors.StatusError` carrying an HTTP status `code`. -/
structure TransportError where
  isStatus : Bool
  code : Nat
  msg : String
  deriving Repr, DecidableEq

/-- `errors.IsNotFound`. -/
def isNotFoundError (e : TransportError) : Bool := e.isStatus && e.code == 404

/-- `isIncompatibleServerError` (apply.go lines 289-295): a status error with
code 415 (`http.StatusUnsupportedMediaType`) means the server does not
support server-side apply. -/
def isIncompatibleServerError (e : TransportError) : Bool := e.isStatus && e.code == 415

structure GVK where
  group : String
  version : String
  kind : String
  deriving Repr, DecidableEq

inductive Scope where
  | namespaced
  | cluster
  deriving Repr, DecidableEq

/-- The result of `restMapper.RESTMapping`: a resource handle plus its scope. -/
structure Mapping where
  resource : String
  scope : Scope
  deriving Repr, DecidableEq

/-- The REST mapper collaborator (`meta.RESTMapper`, built by `ToRESTMapper`
from the discovery client): resolves a group-version-kind. -/
def RestMapper := GVK → Except String Mapping

/-- A dynamic-client resource interface: the resource, namespaced to `ns` when
`ns` is `some` (`dri` in the source). -/
structure ResourceTarget where
  resource : String
  ns : Option String
  deriving Repr, DecidableEq

/-- `types.ApplyPatchType`, `types.MergePatchType`,
`types.StrategicMergePatchType`. -/
inductive PatchType where
  | apply
  | merge
  | strategic
  deriving Repr, DecidableEq

/-- `metav1.PatchOptions` (the fields the engine sets). -/
structure PatchOptions where
  fieldManager : String
  force : Option Bool
  deriving Repr, DecidableEq

/-- One request issued to the transport collaborator. -/
inductive Call where
  | get (target : ResourceTarget) (name : String)
  | create (target : ResourceTarget) (body : JValue)
  | patch (target : ResourceTarget) (name : String) (pt : PatchType) (payload : JValue)
      (opts : PatchOptions)

def Call.target : Call → ResourceTarget
  | .get t _ => t
  | .create t _ => t
  | .patch t _ _ _ _ => t

def Call.isPatch : Call → Bool
  | .patch _ _ _ _ _ => true
  | _ => false

def Call.isCreate : Call → Bool
  | .create _ _ => true
  | _ => false

/-- The transport collaborator: responses of the object store to get, create
and patch requests.  The dynamic client returns a nil object whenever it
returns an error, which `Except` captures exactly. -/
structure Env where
  get : ResourceTarget → String → Except TransportError JValue
  create : ResourceTarget → JValue → Except TransportError JValue
  patch : ResourceTarget → String → PatchType → JValue → PatchOptions →
    Except TransportError JValue

/-- Modelled from the spec: the in-process type registry (`Scheme`, consulted
via `Scheme.New(gvk)` in `Patch`) is repository code that is not under src/.
Per §4.3/§6 it maps a group-version-kind to a known strongly-typed schema, a
not-registered signal, or a lookup failure.  For a known type the strategic
three-way merge of `k8s.io/apimachinery/pkg/util/strategicpatch` (an external
library, driven by the registered struct's patch metadata) is abstracted as
an oracle from the (original, modified, current) triple to patch bytes. -/
inductive RegistryResult where
  | notRegistered
  | known (strategicThreeWay : JValue → JValue → JValue → Except String JValue)
  | lookupFailure (msg : String)

def Registry := GVK → RegistryResult

/-- Failure of the serializer decode step (line 141):
`unstructured.UnstructuredJSONScheme` requires a non-empty kind. -/
inductive ObjDecodeErr where
  | missingKind
  deriving Repr, DecidableEq

/-- Split a character list at its first slash (group/version parsing of
`apiVersion`): `none` when no slash occurs. -/
def splitSlash : List Char → List Char → Option (String × String)
  | [], _ => none
  | c :: rest, acc =>
    if c = '/' then some (⟨acc.reverse⟩, ⟨rest⟩) else splitSlash rest (c :: acc)

/-- The serializer decode of the just-marshalled object (lines 136-144):
extract the GroupVersionKind.  `apiVersion` is split as group/version at its
first slash, or read as a bare version without a group. -/
def decodeGVK (j : JValue) : Except ObjDecodeErr GVK :=
  if j.getKind = "" then .error .missingKind
  else
    match splitSlash j.getAPIVersion.toList [] with
    | some (g, v) => .ok ⟨g, v, j.getKind⟩
    | none => .ok ⟨"", j.getAPIVersion, j.getKind⟩

/-! ### The engine: strategy selection, per-object apply, decoding, batch -/

/-- Errors of `Patch` (apply.go lines 218-263).  `identityChanged` carries the
user-facing message "At least one of apiVersion, kind and name was changed";
`mergeFailed` is the generic "unable to apply patch" wrapper. -/
inductive PatchError where
  | identityChanged
  | mergeFailed (e : MergeErr)
  | strategicFailed (msg : String)
  | schemeFailure (msg : String)
  deriving Repr, DecidableEq

/-- The preconditions `Patch` installs for the JSON-merge strategy
(lines 236-240). -/
def jsonMergePreconditions : List (JValue → Bool) :=
  [requireKeyUnchanged "apiVersion", requireKeyUnchanged "kind", requireKeyUnchanged "name"]

set_option linter.unusedVariables false in
/-- `Patch` (apply.go lines 218-263): serialize the live object, extract the
original configuration from its annotation, and select the patch strategy by
registry lookup: not registered → three-way JSON merge patch from
(original, modified, current) with the apiVersion/kind/name preconditions
(a precondition failure becomes the distinct identity-changed error, any
other merge failure the generic one); registered → strategic three-way
merge; any other lookup outcome → fatal. -/
def Patch (reg : Registry) (currentUnstr : JValue) (modified : JValue) (nm : String)
    (gvk : GVK) : Except PatchError (JValue × PatchType) :=
  let current := currentUnstr
  let original := GetOriginalConfiguration currentUnstr
  match reg gvk with
  | .notRegistered =>
    match createThreeWayJSONMergePatch original modified current jsonMergePreconditions with
    | .error e =>
      if isPreconditionFailed e then .error .identityChanged
      else .error (.mergeFailed e)
    | .ok patch => .ok (patch, .merge)
  | .known strategicThreeWay =>
    match strategicThreeWay original modified current with
    | .error m => .error (.strategicFailed m)
    | .ok patch => .ok (patch, .strategic)
  | .lookupFailure m => .error (.schemeFailure m)

/-- An error returned by `ApplyUnstructured`, with the data its message
carries. -/
inductive AErr where
  | generateName (gn : String)
  | objDecode (e : ObjDecodeErr)
  | restMapping (msg : String)
  | serverSideIncompatible (e : TransportError)
  | transport (e : TransportError)
  | retrievingCurrent (nm : String) (e : TransportError)
  | patchCompute (e : PatchError)
  deriving Repr, DecidableEq

/-- The observable outcome of one `ApplyUnstructured` call: the returned
object and error (Go returns the pair), the transport requests issued in
order, and the final state `post` of the caller-shared object map. -/
structure ApplyResult where
  retObj : Option JValue
  retErr : Option AErr
  calls : List Call
  post : JValue

/-- Namespace defaulting (lines 152-156): a namespaced object with an empty
namespace is moved into the fixed namespace "default". -/
def defaulted (mp : Mapping) (u : JValue) : JValue :=
  if mp.scope = Scope.namespaced ∧ u.getNamespace = "" then u.setNamespace "default" else u

/-- The resource interface the calls target (`dri`, lines 152-160). -/
def targetOf (mp : Mapping) (u1 : JValue) : ResourceTarget :=
  if mp.scope = Scope.namespaced then ⟨mp.resource, some u1.getNamespace⟩
  else ⟨mp.resource, none⟩

/-- The object state the server-side branch leaves behind (lines 162-170):
the legacy annotation dropped when present, then managedFields removed. -/
def serverSideStripped (mp : Mapping) (u : JValue) : JValue :=
  removeManagedFields (stripLastApplied (defaulted mp u))

/-- `ApplyUnstructured` (apply.go lines 126-216).  Faithfulness notes:
the payload `b` is marshalled at line 136, BEFORE namespace defaulting
(lines 152-156) and before the server-side stripping (lines 164-169), and it
is `b` that line 174 sends as the apply-patch payload — hence the payload in
the recorded patch call is the unmodified `u`; likewise `modified` is
computed at line 183 from the object decoded out of `b`, i.e. from the
pre-defaulting `u`.  The server-side branch returns `nil, nil` on success
(line 180) and every error path returns a nil object. -/
def ApplyUnstructured (env : Env) (reg : Registry) (mapper : RestMapper)
    (u : JValue) (serverSide : Bool) : ApplyResult :=
  if u.getName = "" ∧ u.getGenerateName ≠ "" then
    ⟨none, some (.generateName u.getGenerateName), [], u⟩
  else
    match decodeGVK u with
    | .error e => ⟨none, some (.objDecode e), [], u⟩
    | .ok gvk =>
      match mapper gvk with
      | .error m => ⟨none, some (.restMapping m), [], u⟩
      | .ok mp =>
        if serverSide then
          match env.patch (targetOf mp (defaulted mp u)) (serverSideStripped mp u).getName
              PatchType.apply u ⟨"k8sutil", some true⟩ with
          | .error e =>
            ⟨none,
             some (if isIncompatibleServerError e then .serverSideIncompatible e
               else .transport e),
             [Call.patch (targetOf mp (defaulted mp u)) (serverSideStripped mp u).getName
                PatchType.apply u ⟨"k8sutil", some true⟩],
             serverSideStripped mp u⟩
          | .ok _ =>
            ⟨none, none,
             [Call.patch (targetOf mp (defaulted mp u)) (serverSideStripped mp u).getName
                PatchType.apply u ⟨"k8sutil", some true⟩],
             serverSideStripped mp u⟩
        else
          match env.get (targetOf mp (defaulted mp u)) (defaulted mp u).getName with
          | .error ge =>
            if isNotFoundError ge = false then
              ⟨none, some (.retrievingCurrent (defaulted mp u).getName ge),
               [Call.get (targetOf mp (defaulted mp u)) (defaulted mp u).getName],
               defaulted mp u⟩
            else
              match env.create (targetOf mp (defaulted mp u))
                  (CreateApplyAnnotationStamp (defaulted mp u)) with
              | .error ce =>
                ⟨none, some (.transport ce),
                 [Call.get (targetOf mp (defaulted mp u)) (defaulted mp u).getName,
                  Call.create (targetOf mp (defaulted mp u))
                    (CreateApplyAnnotationStamp (defaulted mp u))],
                 CreateApplyAnnotationStamp (defaulted mp u)⟩
              | .ok live =>
                ⟨some live, none,
                 [Call.get (targetOf mp (defaulted mp u)) (defaulted mp u).getName,
                  Call.create (targetOf mp (defaulted mp u))
                    (CreateApplyAnnotationStamp (defaulted mp u))],
                 CreateApplyAnnotationStamp (defaulted mp u)⟩
          | .ok current =>
            match Patch reg current (GetModifiedConfiguration u) (defaulted mp u).getName
                gvk with
            | .error pe =>
              ⟨none, some (.patchCompute pe),
               [Call.get (targetOf mp (defaulted mp u)) (defaulted mp u).getName],
               defaulted mp u⟩
            | .ok (patchBytes, pt) =>
              match env.patch (targetOf mp (defaulted mp u)) (defaulted mp u).getName pt
                  patchBytes ⟨"", none⟩ with
              | .error te =>
                ⟨none, some (.transport te),
                 [Call.get (targetOf mp (defaulted mp u)) (defaulted mp u).getName,
                  Call.patch (targetOf mp (defaulted mp u)) (defaulted mp u).getName pt
                    patchBytes ⟨"", none⟩],
                 defaulted mp u⟩
              | .ok live =>
                ⟨some live, none,
                 [Call.get (targetOf mp (defaulted mp u)) (defaulted mp u).getName,
                  Call.patch (targetOf mp (defaulted mp u)) (defaulted mp u).getName pt
                    patchBytes ⟨"", none⟩],
                 defaulted mp u⟩

/-- The outcome of the decoder collaborators on one document of the input
stream: the streaming YAML/JSON reader (line 98), the serializer (line 103)
and the conversion to unstructured via `util.ConvertSingleObjectToUnstructured`
(line 110) are external to the engine; each document either passes all three
stages yielding an object, or fails at one of them. -/
inductive DocOutcome where
  | ok (obj : JValue)
  | rawErr (msg : String)
  | serializeErr (msg : String)
  | convertErr (msg : String)

def DocOutcome.isOk : DocOutcome → Bool
  | .ok _ => true
  | _ => false

def DocOutcome.objOpt : DocOutcome → Option JValue
  | .ok o => some o
  | _ => none

/-- The error `Decode` returns, naming the 1-based ordinal of the failing
document (the message built at line 120, "parsing the section:[i] content
error".  The inner `err` bound at lines 103/110 shadows the outer one, so
the stage-specific message of lines 105/112 is dropped, but the ordinal `i`
in the outer message survives in every failure case). -/
structure DecodeError where
  ordinal : Nat
  deriving Repr, DecidableEq

/-- The decoding loop of `Decode` (lines 96-117): `i` is the 1-based section
counter, `acc` the objects decoded so far; any stage failure breaks out of
the loop, end of stream is `io.EOF`. -/
def decodeLoop : List DocOutcome → Nat → List JValue → List JValue × Option DecodeError
  | [], _, acc => (acc, none)
  | d :: rest, i, acc =>
    match d with
    | .ok obj => decodeLoop rest (i + 1) (acc ++ [obj])
    | _ => (acc, some ⟨i⟩)

/-- `Decode` (apply.go lines 90-124): decode documents until end of stream;
at end of stream return the collected objects and no error; at a failing
document stop and return the objects decoded so far plus the error naming
that document's ordinal. -/
def Decode (docs : List DocOutcome) : List JValue × Option DecodeError :=
  decodeLoop docs 1 []

/-- `FailedObject` (apply.go lines 38-42).  The error message is kept as the
structured error value rather than its rendered string. -/
structure FailedObject where
  name : String
  kind : String
  errMessage : AErr

/-- A Go runtime panic aborting `Apply`. -/
inductive GoPanic where
  | nilDeref
  deriving Repr, DecidableEq

/-- `applyOptions` (lines 33-37): `restMapperSetup` is the outcome of
`ToRESTMapper()` (lines 56-64), i.e. of the discovery collaborator. -/
structure applyOptions where
  restMapperSetup : Except String RestMapper
  serverSide : Bool

/-- The per-object loop of `Apply` (lines 77-85): on an error from
`ApplyUnstructured` the failure record is built from the returned object
(`object.GetName()`, `object.GetKind()` at line 81); since `ApplyUnstructured`
returns a nil object on every error path, that dereferences a nil pointer
and panics. -/
def applyLoop (env : Env) (reg : Registry) (mapper : RestMapper) (serverSide : Bool) :
    List JValue → List FailedObject → Except GoPanic (List FailedObject)
  | [], acc => .ok acc
  | unstruct :: rest, acc =>
    match (ApplyUnstructured env reg mapper unstruct serverSide).retErr with
    | some e =>
      match (ApplyUnstructured env reg mapper unstruct serverSide).retObj with
      | none => .error .nilDeref
      | some o =>
        applyLoop env reg mapper serverSide rest (acc ++ [⟨o.getName, o.getKind, e⟩])
    | none => applyLoop env reg mapper serverSide rest acc

/-- The hard error returned by `Apply`: REST-mapper setup failure or a
decoding failure. -/
inductive HardErr where
  | setup (msg : String)
  | decode (e : DecodeError)
  deriving Repr, DecidableEq

/-- `Apply` (apply.go lines 66-88): build the REST mapper, decode the batch,
then run each object through `ApplyUnstructured`.  A setup or decode failure
returns immediately with an empty failure list.  After a completed loop the
named return `err` is nil again (the loop-local `err` at line 79 shadows it),
so per-object failures can never surface in the returned error.  The
`Except GoPanic` layer records that the loop panics instead of returning when
a per-object failure occurs (see `applyLoop`). -/
def Apply (o : applyOptions) (env : Env) (reg : Registry) (data : List DocOutcome) :
    Except GoPanic (List FailedObject × Option HardErr) :=
  match o.restMapperSetup with
  | .error m => .ok ([], some (.setup m))
  | .ok mapper =>
    match Decode data with
    | (_, some de) => .ok ([], some (.decode de))
    | (unstructList, none) =>
      match applyLoop env reg mapper o.serverSide unstructList [] with
      | .error p => .error p
      | .ok failedObjects => .ok (failedObjects, none)

/-! ### Concrete fixtures for witnesses and counterexamples -/

/-- A minimal well-formed ConfigMap manifest named `nm`. -/
def cmObj (nm : String) : JValue :=
  .obj [("apiVersion", .str "v1"), ("kind", .str "ConfigMap"),
    ("metadata", .obj [("name", .str nm)])]

/-- A manifest with an empty name and a generate-name. -/
def genNameObj : JValue :=
  .obj [("apiVersion", .str "v1"), ("kind", .str "ConfigMap"),
    ("metadata", .obj [("generateName", .str "cm-")])]

/-- A manifest with neither name nor generate-name. -/
def noNameObj : JValue :=
  .obj [("apiVersion", .str "v1"), ("kind", .str "ConfigMap"), ("metadata", .obj [])]

/-- A named manifest carrying the legacy annotation and managedFields. -/
def annotatedObj : JValue :=
  .obj [("apiVersion", .str "v1"), ("kind", .str "ConfigMap"),
    ("metadata", .obj [("name", .str "cm"),
      ("annotations", .obj [(lastAppliedConfigAnnotationKey, .obj [("kind", .str "ConfigMap")])]),
      ("managedFields", .arr [])])]

/-- A mapper resolving every kind to a namespaced `configmaps` resource. -/
def okMapper : RestMapper := fun _ => .ok ⟨"configmaps", Scope.namespaced⟩

/-- A registry in which no kind is registered (every object takes the
JSON-merge path). -/
def allMergeReg : Registry := fun _ => RegistryResult.notRegistered

/-- A transport over an empty store: get answers 404, create and patch echo
the request body. -/
def notFoundEnv : Env :=
  ⟨fun _ _ => .error ⟨true, 404, "not found"⟩, fun _ body => .ok body,
   fun _ _ _ payload _ => .ok payload⟩

/-- A transport whose get fails with a 500 status. -/
def boomGetEnv : Env :=
  ⟨fun _ _ => .error ⟨true, 500, "boom"⟩, fun _ body => .ok body,
   fun _ _ _ payload _ => .ok payload⟩

/-- A transport whose get returns `live`; create and patch echo the body. -/
def liveEnv (live : JValue) : Env :=
  ⟨fun _ _ => .ok live, fun _ body => .ok body, fun _ _ _ payload _ => .ok payload⟩

/-- The live object `Patch` is exercised against in the C5 witness. -/
def kindAObj : JValue :=
  .obj [("apiVersion", .str "v1"), ("kind", .str "A"),
    ("metadata", .obj [("name", .str "x")])]

/-- A desired object whose kind differs from `kindAObj`. -/
def kindBObj : JValue :=
  .obj [("apiVersion", .str "v1"), ("kind", .str "B"),
    ("metadata", .obj [("name", .str "x")])]

/-! ### Claim theorems -/

theorem decodeLoop_ok_front (bad : DocOutcome) (hbad : bad.isOk = false)
    (rest : List DocOutcome) (pre : List DocOutcome) (hpre : ∀ d ∈ pre, d.isOk = true) :
    ∀ (i : Nat) (acc : List JValue),
      decodeLoop (pre ++ bad :: rest) i acc =
        (acc ++ pre.filterMap DocOutcome.objOpt, some ⟨i + pre.length⟩) := by
  induction pre with
  | nil =>
    intro i acc
    cases bad with
    | ok o => simp [DocOutcome.isOk] at hbad
    | rawErr m => simp [decodeLoop]
    | serializeErr m => simp [decodeLoop]
    | convertErr m => simp [decodeLoop]
  | cons d ds ih =>
    intro i acc
    have hd : d.isOk = true := hpre d (by simp)
    cases d with
    | ok o =>
      have step := ih (fun x hx => hpre x (by simp [hx])) (i + 1) (acc ++ [o])
      simp only [List.cons_append, decodeLoop, List.append_eq] at step ⊢
      rw [step]
      simp only [Prod.mk.injEq, DocOutcome.objOpt, List.filterMap_cons, List.length_cons,
        Option.some.injEq, DecodeError.mk.injEq]
      exact ⟨by simp, by omega⟩
    | rawErr m => simp [DocOutcome.isOk] at hd
    | serializeErr m => simp [DocOutcome.isOk] at hd
    | convertErr m => simp [DocOutcome.isOk] at hd

/-- C7: for every input stream whose k-th document (1-based) is the first
malformed one, `Decode` stops at that document and returns the k-1 objects
decoded so far together with an error naming the ordinal k. -/
theorem c7_decode_stops_at_first_malformed (pre : List DocOutcome) (bad : DocOutcome)
    (rest : List DocOutcome) (hpre : ∀ d ∈ pre, d.isOk = true) (hbad : bad.isOk = false) :
    Decode (pre ++ bad :: rest) =
      (pre.filterMap DocOutcome.objOpt, some ⟨pre.length + 1⟩) := by
  unfold Decode
  rw [decodeLoop_ok_front bad hbad rest pre hpre 1 []]
  simp [Nat.add_comm]

/-- Witness for C7 at a concrete 3-document stream whose second document
fails the serializer. -/
theorem c7_decode_witness :
    Decode [.ok (cmObj "a"), .serializeErr "bad", .ok (cmObj "b")] =
      ([cmObj "a"], some ⟨2⟩) := by
  have h := c7_decode_stops_at_first_malformed [DocOutcome.ok (cmObj "a")]
    (DocOutcome.serializeErr "bad") [DocOutcome.ok (cmObj "b")]
    (by simp [DocOutcome.isOk]) rfl
  simpa [DocOutcome.objOpt] using h

/-- C4 (amended): `ApplyUnstructured` rejects, before any transport call,
exactly the objects with an empty name AND a non-empty generate-name (the
generate-name-incompatible error); an object with an empty name but no
generate-name passes this validation and proceeds. -/
theorem c4_generate_name_validation (env : Env) (reg : Registry) (mapper : RestMapper)
    (u : JValue) (serverSide : Bool) :
    ((u.getName = "" ∧ u.getGenerateName ≠ "") →
      ApplyUnstructured env reg mapper u serverSide =
        ⟨none, some (.generateName u.getGenerateName), [], u⟩) ∧
    (∀ gn, (ApplyUnstructured env reg mapper u serverSide).retErr =
        some (.generateName gn) →
      u.getName = "" ∧ u.getGenerateName ≠ "") := by
  constructor
  · intro h
    unfold ApplyUnstructured
    rw [if_pos h]
  · intro gn hgn
    by_contra hne
    unfold ApplyUnstructured at hgn
    rw [if_neg hne] at hgn
    split at hgn <;> try simp_all
    all_goals (split at hgn <;> try simp_all)
    all_goals (split at hgn <;> try simp_all)
    all_goals (split at hgn <;> try simp_all)
    all_goals (split at hgn <;> try simp_all)
    all_goals (split at hgn <;> try simp_all)

/-- Counterexample to C4 as stated: the object with an empty name and no
generate-name is NOT rejected — its apply reaches the transport (a get and a
create are issued) and succeeds. -/
theorem c4_empty_name_not_rejected_counterexample :
    (ApplyUnstructured notFoundEnv allMergeReg okMapper noNameObj false).retErr = none ∧
    (ApplyUnstructured notFoundEnv allMergeReg okMapper noNameObj false).calls.length = 2 :=
  ⟨rfl, rfl⟩

/-- Witness for the amended C4: the concrete generate-name object is rejected
with the generate-name error and an empty call trace. -/
theorem c4_generate_name_witness :
    ApplyUnstructured notFoundEnv allMergeReg okMapper genNameObj false =
      ⟨none, some (.generateName "cm-"), [], genNameObj⟩ :=
  (c4_generate_name_validation notFoundEnv allMergeReg okMapper genNameObj false).1
    ⟨rfl, by decide⟩

/-- Helper: whenever classic-mode `ApplyUnstructured` returns a
patch-computation error, its call trace contains no patch request (the
transport patch of line 215 is only reached when `Patch` succeeds). -/
theorem patchCompute_error_no_patch_call (env : Env) (reg : Registry) (mapper : RestMapper)
    (u : JValue) (pe : PatchError) :
    (ApplyUnstructured env reg mapper u false).retErr = some (.patchCompute pe) →
      (ApplyUnstructured env reg mapper u false).calls.all (fun c => !c.isPatch) = true := by
  unfold ApplyUnstructured
  split <;> try simp_all [Call.isPatch]
  all_goals (split <;> try simp_all [Call.isPatch])
  all_goals (split <;> try simp_all [Call.isPatch])
  all_goals (split <;> try simp_all [Call.isPatch])
  all_goals (split <;> try simp_all [Call.isPatch])
  all_goals (split <;> try simp_all [Call.isPatch])

/-- C5: for a group-version-kind not registered in the type registry, `Patch`
computes the three-way JSON merge patch of (original, modified, current)
under the apiVersion/kind/name preconditions and tags it as a JSON merge
patch; a violated precondition yields the distinct identity-changed error
(never the generic merge failure, which only arises for non-precondition
errors); and when `Patch` fails, `ApplyUnstructured` issues no patch request
to the transport. -/
theorem c5_unknown_type_json_merge (reg : Registry) (gvk : GVK)
    (current modified : JValue) (nm : String) (env : Env) (mapper : RestMapper)
    (u : JValue) (hreg : reg gvk = .notRegistered) :
    (∀ p, createThreeWayJSONMergePatch (GetOriginalConfiguration current) modified current
        jsonMergePreconditions = .ok p →
      Patch reg current modified nm gvk = .ok (p, .merge)) ∧
    (createThreeWayJSONMergePatch (GetOriginalConfiguration current) modified current
        jsonMergePreconditions = .error .preconditionFailed →
      Patch reg current modified nm gvk = .error .identityChanged) ∧
    (∀ e, createThreeWayJSONMergePatch (GetOriginalConfiguration current) modified current
        jsonMergePreconditions = .error e → isPreconditionFailed e = false →
      Patch reg current modified nm gvk = .error (.mergeFailed e)) ∧
    (∀ pe, (ApplyUnstructured env reg mapper u false).retErr = some (.patchCompute pe) →
      (ApplyUnstructured env reg mapper u false).calls.all (fun c => !c.isPatch) = true) := by
  refine ⟨?_, ?_, ?_, ?_⟩
  · intro p hp
    simp [Patch, hreg, hp]
  · intro hp
    simp [Patch, hreg, hp, isPreconditionFailed]
  · intro e he hne
    simp [Patch, hreg, he, hne]
  · intro pe
    exact patchCompute_error_no_patch_call env reg mapper u pe

/-- Witness for C5: a live object of kind A with a desired object of kind B
fails the kind precondition with the identity-changed error, and the
corresponding classic apply run records a get but no patch request. -/
theorem c5_unknown_type_witness :
    Patch allMergeReg kindAObj kindBObj "x" ⟨"", "v1", "A"⟩ = .error .identityChanged ∧
    (ApplyUnstructured (liveEnv kindAObj) allMergeReg okMapper kindBObj false).calls.all
      (fun c => !c.isPatch) = true := by
  have h := c5_unknown_type_json_merge allMergeReg ⟨"", "v1", "A"⟩ kindAObj kindBObj "x"
    (liveEnv kindAObj) okMapper kindBObj rfl
  exact ⟨h.2.1 rfl, h.2.2.2 .identityChanged rfl⟩

/-- C8: in classic mode, when the transport get reports not-found the engine
stamps the configuration annotation and then issues create with the stamped
object (which therefore carries its baseline annotation); for any other get
error the object's apply fails with the retrieving-current error and no
create is attempted. -/
theorem c8_create_path (env env2 : Env) (reg reg2 : Registry) (mapper : RestMapper)
    (u : JValue) (gvk : GVK) (mp : Mapping) (e e2 : TransportError)
    (hname : ¬(u.getName = "" ∧ u.getGenerateName ≠ ""))
    (hgvk : decodeGVK u = .ok gvk) (hmap : mapper gvk = .ok mp)
    (hget : env.get (targetOf mp (defaulted mp u)) (defaulted mp u).getName = .error e)
    (hnf : isNotFoundError e = true)
    (hget2 : env2.get (targetOf mp (defaulted mp u)) (defaulted mp u).getName = .error e2)
    (hnf2 : isNotFoundError e2 = false) :
    ((ApplyUnstructured env reg mapper u false).calls =
      [Call.get (targetOf mp (defaulted mp u)) (defaulted mp u).getName,
       Call.create (targetOf mp (defaulted mp u)) (CreateApplyAnnotationStamp (defaulted mp u))] ∧
     (CreateApplyAnnotationStamp (defaulted mp u)).hasAnnotationKey lastAppliedConfigAnnotationKey =
       true) ∧
    ((ApplyUnstructured env2 reg2 mapper u false).retErr =
       some (.retrievingCurrent (defaulted mp u).getName e2) ∧
     (ApplyUnstructured env2 reg2 mapper u false).calls =
       [Call.get (targetOf mp (defaulted mp u)) (defaulted mp u).getName]) := by
  refine ⟨⟨?_, hasAnnotationKey_createApplyStamp _⟩, ?_, ?_⟩
  · unfold ApplyUnstructured
    rw [if_neg hname]
    simp only [hgvk, hmap, hget, hnf]
    split
    · next hc => simp at hc
    · split
      · next hc => simp at hc
      · split <;> rfl
  · unfold ApplyUnstructured
    rw [if_neg hname]
    simp only [hgvk, hmap, hget2, hnf2]
    split
    · next hc => simp at hc
    · split
      · rfl
      · next hc => simp at hc
  · unfold ApplyUnstructured
    rw [if_neg hname]
    simp only [hgvk, hmap, hget2, hnf2]
    split
    · next hc => simp at hc
    · split
      · rfl
      · next hc => simp at hc

/-- Witness for C8: a never-seen ConfigMap (get answers 404) is created with
the stamped annotation; a 500 on get fails the object without a create. -/
theorem c8_create_path_witness :
    (ApplyUnstructured notFoundEnv allMergeReg okMapper (cmObj "w8") false).calls =
      [Call.get ⟨"configmaps", some "default"⟩ "w8",
       Call.create ⟨"configmaps", some "default"⟩
         (CreateApplyAnnotationStamp (defaulted ⟨"configmaps", Scope.namespaced⟩ (cmObj "w8")))] ∧
    (CreateApplyAnnotationStamp (defaulted ⟨"configmaps", Scope.namespaced⟩
        (cmObj "w8"))).hasAnnotationKey lastAppliedConfigAnnotationKey = true ∧
    (ApplyUnstructured boomGetEnv allMergeReg okMapper (cmObj "w8") false).retErr =
      some (.retrievingCurrent "w8" ⟨true, 500, "boom"⟩) ∧
    (ApplyUnstructured boomGetEnv allMergeReg okMapper (cmObj "w8") false).calls =
      [Call.get ⟨"configmaps", some "default"⟩ "w8"] := by
  have h := c8_create_path notFoundEnv boomGetEnv allMergeReg allMergeReg okMapper
    (cmObj "w8") ⟨"", "v1", "ConfigMap"⟩ ⟨"configmaps", Scope.namespaced⟩
    ⟨true, 404, "not found"⟩ ⟨true, 500, "boom"⟩ (by decide) rfl rfl rfl rfl rfl rfl
  exact ⟨h.1.1, h.1.2, h.2.1, h.2.2⟩

/-- C9: namespace defaulting — a namespaced-scope object with an empty
namespace is applied into the fixed namespace "default"; a cluster-scoped
object or one with a non-empty namespace is not re-namespaced; and every
transport request of the apply targets the resolved resource interface. -/
theorem c9_namespace_defaulting (env : Env) (reg : Registry) (mapper : RestMapper)
    (u : JValue) (gvk : GVK) (mp : Mapping) (serverSide : Bool)
    (hgvk : decodeGVK u = .ok gvk) (hmap : mapper gvk = .ok mp) :
    (mp.scope = Scope.namespaced → u.getNamespace = "" →
      (defaulted mp u).getNamespace = "default" ∧
      targetOf mp (defaulted mp u) = ⟨mp.resource, some "default"⟩) ∧
    (mp.scope = Scope.namespaced → u.getNamespace ≠ "" →
      defaulted mp u = u ∧
      targetOf mp (defaulted mp u) = ⟨mp.resource, some u.getNamespace⟩) ∧
    (mp.scope = Scope.cluster →
      defaulted mp u = u ∧ targetOf mp (defaulted mp u) = ⟨mp.resource, none⟩) ∧
    ((ApplyUnstructured env reg mapper u serverSide).calls.all
      (fun c => c.target == targetOf mp (defaulted mp u))) = true := by
  refine ⟨?_, ?_, ?_, ?_⟩
  · intro hs hns
    have hd : defaulted mp u = u.setNamespace "default" := by
      unfold defaulted; rw [if_pos ⟨hs, hns⟩]
    constructor
    · rw [hd, getNamespace_setNamespace]
    · unfold targetOf
      rw [if_pos hs, hd, getNamespace_setNamespace]
  · intro hs hns
    have hd : defaulted mp u = u := by
      unfold defaulted
      rw [if_neg (fun hh => hns hh.2)]
    refine ⟨hd, ?_⟩
    unfold targetOf
    rw [if_pos hs, hd]
  · intro hs
    have hd : defaulted mp u = u := by
      unfold defaulted
      rw [if_neg (by rw [hs]; rintro ⟨h1, -⟩; cases h1)]
    refine ⟨hd, ?_⟩
    unfold targetOf
    rw [if_neg (by rw [hs]; intro hh; cases hh)]
  · unfold ApplyUnstructured
    by_cases hguard : u.getName = "" ∧ u.getGenerateName ≠ ""
    · rw [if_pos hguard]; rfl
    · rw [if_neg hguard]
      simp only [hgvk, hmap]
      split <;> try simp [Call.target]
      all_goals (split <;> try simp [Call.target])
      all_goals (split <;> try simp [Call.target])
      all_goals (split <;> try simp [Call.target])

/-- Witness for C9: a ConfigMap with no namespace lands in "default", both in
the defaulted object and in the targeted resource interface. -/
theorem c9_namespace_defaulting_witness :
    (defaulted ⟨"configmaps", Scope.namespaced⟩ (cmObj "w9")).getNamespace = "default" ∧
    targetOf ⟨"configmaps", Scope.namespaced⟩
        (defaulted ⟨"configmaps", Scope.namespaced⟩ (cmObj "w9")) =
      ⟨"configmaps", some "default"⟩ := by
  have h := c9_namespace_defaulting notFoundEnv allMergeReg okMapper (cmObj "w9")
    ⟨"", "v1", "ConfigMap"⟩ ⟨"configmaps", Scope.namespaced⟩ false rfl rfl
  exact h.1 rfl rfl

theorem hasAnnotationKey_removeManagedFields (j : JValue) (k : String) :
    (removeManagedFields j).hasAnnotationKey k = j.hasAnnotationKey k := by
  unfold JValue.hasAnnotationKey
  rw [getNested_annotations_removeManagedFields]

/-- Helper: in server-side mode the caller-visible object ends as the
stripped, namespace-defaulted object, whatever the transport answers. -/
theorem applyUnstructured_post_serverSide (env : Env) (reg : Registry)
    (mapper : RestMapper) (u : JValue) (gvk : GVK) (mp : Mapping)
    (hname : ¬(u.getName = "" ∧ u.getGenerateName ≠ ""))
    (hgvk : decodeGVK u = .ok gvk) (hmap : mapper gvk = .ok mp) :
    (ApplyUnstructured env reg mapper u true).post = serverSideStripped mp u := by
  unfold ApplyUnstructured
  rw [if_neg hname]
  simp only [hgvk, hmap]
  split
  · split <;> rfl
  · next hc => simp at hc

/-- Helper: in classic mode the caller-visible object ends as the
namespace-defaulted object, possibly carrying the stamped annotation. -/
theorem applyUnstructured_post_classic (env : Env) (reg : Registry)
    (mapper : RestMapper) (u : JValue) (gvk : GVK) (mp : Mapping)
    (hname : ¬(u.getName = "" ∧ u.getGenerateName ≠ ""))
    (hgvk : decodeGVK u = .ok gvk) (hmap : mapper gvk = .ok mp) :
    (ApplyUnstructured env reg mapper u false).post = defaulted mp u ∨
    (ApplyUnstructured env reg mapper u false).post =
      CreateApplyAnnotationStamp (defaulted mp u) := by
  unfold ApplyUnstructured
  rw [if_neg hname]
  simp only [hgvk, hmap]
  split
  · next hc => simp at hc
  · split
    · split
      · left; rfl
      · split <;> (right; rfl)
    · split
      · left; rfl
      · split <;> (left; rfl)

/-- C10: `ApplyUnstructured` mutates the caller-supplied object in place
(through the shared underlying map): for a namespaced object with an empty
namespace the caller's copy ends with namespace "default" (in either mode),
and in server-side mode the last-applied annotation and managedFields are
removed from the caller's copy — in both cases the final object differs from
the decoded input. -/
theorem c10_caller_object_mutated (env : Env) (reg : Registry) (mapper : RestMapper)
    (u : JValue) (gvk : GVK) (mp : Mapping)
    (hname : ¬(u.getName = "" ∧ u.getGenerateName ≠ ""))
    (hgvk : decodeGVK u = .ok gvk) (hmap : mapper gvk = .ok mp)
    (hscope : mp.scope = Scope.namespaced) (hns : u.getNamespace = "") :
    (∀ serverSide,
      (ApplyUnstructured env reg mapper u serverSide).post.getNamespace = "default" ∧
      (ApplyUnstructured env reg mapper u serverSide).post ≠ u) ∧
    (u.hasAnnotationKey lastAppliedConfigAnnotationKey = true →
      (ApplyUnstructured env reg mapper u true).post.hasAnnotationKey
          lastAppliedConfigAnnotationKey = false ∧
      getNested (ApplyUnstructured env reg mapper u true).post
          ["metadata", "managedFields"] = none ∧
      (ApplyUnstructured env reg mapper u true).post ≠ u) := by
  have hdef : defaulted mp u = u.setNamespace "default" := by
    unfold defaulted; rw [if_pos ⟨hscope, hns⟩]
  have hdns : (defaulted mp u).getNamespace = "default" := by
    rw [hdef, getNamespace_setNamespace]
  have hss : (ApplyUnstructured env reg mapper u true).post = serverSideStripped mp u :=
    applyUnstructured_post_serverSide env reg mapper u gvk mp hname hgvk hmap
  have hpostns : ∀ s, (ApplyUnstructured env reg mapper u s).post.getNamespace = "default" := by
    intro s
    cases s with
    | true =>
      rw [hss]
      unfold serverSideStripped
      rw [getNamespace_removeManagedFields, getNamespace_stripLastApplied, hdns]
    | false =>
      rcases applyUnstructured_post_classic env reg mapper u gvk mp hname hgvk hmap with
        h | h
      · rw [h, hdns]
      · rw [h, getNamespace_createApplyStamp, hdns]
  constructor
  · intro s
    refine ⟨hpostns s, ?_⟩
    intro heq
    have hcongr := congrArg JValue.getNamespace heq
    rw [hpostns s, hns] at hcongr
    exact absurd hcongr (by decide)
  · intro hann
    have h1 : (ApplyUnstructured env reg mapper u true).post.hasAnnotationKey
        lastAppliedConfigAnnotationKey = false := by
      rw [hss]
      unfold serverSideStripped
      rw [hasAnnotationKey_removeManagedFields, hasAnnotationKey_stripLastApplied]
    refine ⟨h1, ?_, ?_⟩
    · rw [hss]
      unfold serverSideStripped
      exact managedFields_removeManagedFields _
    · intro heq
      rw [heq, hann] at h1
      exact Bool.noConfusion h1

/-- Witness for C10: the annotated ConfigMap loses its annotation on the
caller's copy in server-side mode, and gains the defaulted namespace in
classic mode. -/
theorem c10_caller_object_mutated_witness :
    (ApplyUnstructured notFoundEnv allMergeReg okMapper annotatedObj true).post.hasAnnotationKey
      lastAppliedConfigAnnotationKey = false ∧
    (ApplyUnstructured notFoundEnv allMergeReg okMapper annotatedObj false).post.getNamespace =
      "default" := by
  have h := c10_caller_object_mutated notFoundEnv allMergeReg okMapper annotatedObj
    ⟨"", "v1", "ConfigMap"⟩ ⟨"configmaps", Scope.namespaced⟩ (by decide) rfl rfl rfl rfl
  exact ⟨(h.2 rfl).1, (h.1 false).1⟩

/-- C1 (the code violates the claim): in a 3-document batch whose second
document fails validation (empty name, generate-name set), `Apply` does not
record one Failure Record and continue — building the record dereferences
the nil object returned by `ApplyUnstructured` and the whole call panics. -/
theorem c1_per_object_failure_panics :
    Apply ⟨.ok okMapper, false⟩ notFoundEnv allMergeReg
      [.ok (cmObj "a"), .ok genNameObj, .ok (cmObj "b")] = .error .nilDeref := rfl

/-- C2 (the code violates the claim): in server-side mode the payload sent in
the apply-patch request is the marshalled bytes of the UNMODIFIED input
object (marshalling happens at line 136, the stripping only afterwards at
lines 164-169), so the request still carries the legacy annotation and the
managedFields the input had; the field owner and force options are set. -/
theorem c2_server_side_payload_not_stripped :
    (ApplyUnstructured notFoundEnv allMergeReg okMapper annotatedObj true).calls =
      [Call.patch ⟨"configmaps", some "default"⟩ "cm" PatchType.apply annotatedObj
        ⟨"k8sutil", some true⟩] ∧
    annotatedObj.hasAnnotationKey lastAppliedConfigAnnotationKey = true ∧
    (getNested annotatedObj ["metadata", "managedFields"]).isSome = true :=
  ⟨rfl, rfl, rfl⟩

/-- C3 (the code violates the claim): a successful server-side apply returns
a nil object even though the transport returned the live object, and a
failing apply returns a nil object rather than a usable last-known
reference. -/
theorem c3_returns_nil_object :
    (ApplyUnstructured notFoundEnv allMergeReg okMapper (cmObj "c3") true).retObj = none ∧
    (ApplyUnstructured notFoundEnv allMergeReg okMapper (cmObj "c3") true).retErr = none ∧
    notFoundEnv.patch ⟨"configmaps", some "default"⟩ "c3" PatchType.apply (cmObj "c3")
      ⟨"k8sutil", some true⟩ = .ok (cmObj "c3") ∧
    (ApplyUnstructured boomGetEnv allMergeReg okMapper (cmObj "c3f") false).retObj = none ∧
    (ApplyUnstructured boomGetEnv allMergeReg okMapper (cmObj "c3f") false).retErr =
      some (.retrievingCurrent "c3f" ⟨true, 500, "boom"⟩) :=
  ⟨rfl, rfl, rfl, rfl, rfl⟩

/-- C6 (the code violates the claim): the returned hard error is non-nil on a
REST-mapper setup failure and on a decode failure (each aborting before any
object is attempted), but a per-object failure does not leave the error nil
while filling the failures list — it panics the whole call instead. -/
theorem c6_hard_error_channel :
    Apply ⟨.error "discovery unreachable", false⟩ notFoundEnv allMergeReg
      [.ok (cmObj "a")] = .ok ([], some (.setup "discovery unreachable")) ∧
    Apply ⟨.ok okMapper, false⟩ notFoundEnv allMergeReg [.rawErr "bad stream"] =
      .ok ([], some (.decode ⟨1⟩)) ∧
    Apply ⟨.ok okMapper, false⟩ boomGetEnv allMergeReg [.ok (cmObj "x")] =
      .error .nilDeref :=
  ⟨rfl, rfl, rfl⟩

end K8sApply
